import Mathlib

/-!
Shallow embedding of the Energy-Tracker meter app (src/meter/):
models.py (MeterReading, Tariff), forms.py (MeterReadingForm, TariffForm),
views.py (input_data, dashboard).

Dates are encoded as naturals `y*10000 + m*100 + d`, which preserves
chronological order for calendar-valid dates.  Python floats are modelled
as rationals: no claim here depends on rounding, and every concrete value
occurring in the claims is exactly representable.
-/

namespace EnergyTracker

/-- Calendar date encoded as `y*10000 + m*100 + d` (order-preserving). -/
abbrev Date := Nat

/-- models.py: `MeterReading(date : DateField, kwh_used : FloatField)`. -/
structure MeterReading where
  date : Date
  kwh_used : ℚ
deriving DecidableEq

/-- models.py: `Tariff(price_per_kwh : IntegerField)`. -/
structure Tariff where
  price_per_kwh : ℤ
deriving DecidableEq

/-- The record store: the two collections, each in creation (primary-key)
order, which is how Django assigns autoincrement ids. -/
structure Store where
  readings : List MeterReading
  tariffs : List Tariff
deriving DecidableEq

/-! ### Field parsing (Django form field `to_python` semantics) -/

/-- Numeric value of a digit string (caller checks the digits). -/
def natOfDigits (l : List Char) : Nat :=
  l.foldl (fun a c => 10 * a + (c.toNat - 48)) 0

/-- Strip surrounding whitespace, as Python `int`/`float`/`strip` do. -/
def trimChars (l : List Char) : List Char :=
  ((l.dropWhile Char.isWhitespace).reverse.dropWhile Char.isWhitespace).reverse

/-- Split on a separator character, like Python `str.split(sep)`. -/
def splitOnChar (sep : Char) (l : List Char) : List (List Char) :=
  l.foldr
    (fun c acc =>
      if c = sep then [] :: acc
      else
        match acc with
        | a :: rest => (c :: a) :: rest
        | [] => [[c]])
    [[]]

/-- Integer parsing as Django's `IntegerField` does via Python `int(str(v))`:
optional surrounding whitespace, optional sign, then decimal digits. -/
def parseInt (s : String) : Option ℤ :=
  let cs := trimChars s.toList
  let digits : List Char → Option ℤ := fun l =>
    if l ≠ [] ∧ l.all Char.isDigit then some (natOfDigits l : ℤ) else none
  match cs with
  | '-' :: rest => (digits rest).map (fun n => -n)
  | '+' :: rest => digits rest
  | _ => digits cs

/-- Unsigned decimal literal `digits[.digits]` with at least one digit,
as accepted by Python `float`. -/
def parseUnsigned (cs : List Char) : Option ℚ :=
  let ip := cs.takeWhile (fun c => c ≠ '.')
  match cs.dropWhile (fun c => c ≠ '.') with
  | [] =>
    if ip ≠ [] ∧ ip.all Char.isDigit then some (natOfDigits ip : ℚ) else none
  | _ :: frac =>
    if (ip ≠ [] ∨ frac ≠ []) ∧ ip.all Char.isDigit ∧ frac.all Char.isDigit then
      some ((natOfDigits ip : ℚ) + (natOfDigits frac : ℚ) / (10 : ℚ) ^ frac.length)
    else none

/-- Real-number parsing as Django's `FloatField` does via Python `float(v)`:
optional surrounding whitespace, optional sign, decimal literal. -/
def parseFloat (s : String) : Option ℚ :=
  match trimChars s.toList with
  | '-' :: rest => (parseUnsigned rest).map (fun q => -q)
  | '+' :: rest => parseUnsigned rest
  | cs => parseUnsigned cs

/-- Leap-year rule used by Python's `datetime.date`. -/
def isLeap (y : Nat) : Bool :=
  (y % 4 == 0 && y % 100 != 0) || y % 400 == 0

/-- Length of a calendar month, as `datetime.date` validates. -/
def daysInMonth (y m : Nat) : Nat :=
  if m = 2 then (if isLeap y then 29 else 28)
  else if m = 4 ∨ m = 6 ∨ m = 9 ∨ m = 11 then 30
  else 31

/-- Date parsing as Django's `DateField` does with its default
`%Y-%m-%d` input format: three dash-separated digit groups forming a
calendar-valid date, returned in the order-preserving encoding. -/
def parseDate (s : String) : Option Date :=
  match splitOnChar '-' (trimChars s.toList) with
  | [yl, ml, dl] =>
    if yl ≠ [] ∧ ml ≠ [] ∧ dl ≠ [] ∧
        yl.all Char.isDigit ∧ ml.all Char.isDigit ∧ dl.all Char.isDigit then
      let y := natOfDigits yl
      let m := natOfDigits ml
      let d := natOfDigits dl
      if 1 ≤ m ∧ m ≤ 12 ∧ 1 ≤ d ∧ d ≤ daysInMonth y m then
        some (y * 10000 + m * 100 + d)
      else none
    else none
  | _ => none

/-! ### Forms (forms.py) -/

/-- A POST body: each form field is present with a raw string or absent. -/
structure Payload where
  date : Option String
  kwh_used : Option String
  price_per_kwh : Option String

/-- forms.py `MeterReadingForm.is_valid`/`save` data: both required fields
must be present and parse (date as calendar date, kwh_used as float);
the cleaned `MeterReading` instance, or `none` if validation fails. -/
def meterReadingClean (p : Payload) : Option MeterReading :=
  match p.date, p.kwh_used with
  | some ds, some ks =>
    match parseDate ds, parseFloat ks with
    | some d, some k => some ⟨d, k⟩
    | _, _ => none
  | _, _ => none

/-- forms.py `TariffForm.is_valid`/`save` data: `price_per_kwh` must be
present and parse as an integer.  The widget attributes
`min: 0, step: 1` are HTML rendering hints only; Django performs no
server-side minimum check for them, so negatives validate. -/
def tariffClean (p : Payload) : Option Tariff :=
  (p.price_per_kwh.bind parseInt).map Tariff.mk

/-- The blank (unbound) form templates rendered by a GET: field list plus
bound-ness, which is all the structure the spec's claims mention. -/
structure FormTemplate where
  fields : List String
  bound : Bool
deriving DecidableEq

def blankMeterForm : FormTemplate := ⟨["date", "kwh_used"], false⟩

def blankTariffForm : FormTemplate := ⟨["price_per_kwh"], false⟩

/-! ### Views (views.py) -/

/-- What a view hands back to the HTTP layer. -/
inductive Response where
  | redirect (target : String)
  | renderInput (meterForm tariffForm : FormTemplate)
  | noData (msg : String)
  | page (dates : List Date) (kwh : List ℚ) (costs : List ℚ)
      (readings : List MeterReading) (tariff : Tariff)
deriving DecidableEq

inductive Method where
  | GET
  | POST
deriving DecidableEq

/-- views.py `input_data`: on POST, validate each form independently,
save whichever is valid, and always redirect to the dashboard; on GET,
render the two blank forms without touching the store. -/
def input_data (s : Store) (method : Method) (p : Payload) : Store × Response :=
  match method with
  | .POST =>
    let s1 := match meterReadingClean p with
      | some r => { s with readings := s.readings ++ [r] }
      | none => s
    let s2 := match tariffClean p with
      | some t => { s1 with tariffs := s1.tariffs ++ [t] }
      | none => s1
    (s2, .redirect "dashboard")
  | .GET => (s, .renderInput blankMeterForm blankTariffForm)

/-- Readings compared by their `date` field, the order of
`MeterReading.objects.all().order_by('date')`. -/
def readingLE (a b : MeterReading) : Prop := a.date ≤ b.date

instance : DecidableRel readingLE := fun a b => Nat.decLe a.date b.date

instance : IsTotal MeterReading readingLE := ⟨fun a b => Nat.le_total a.date b.date⟩

instance : IsTrans MeterReading readingLE := ⟨fun _ _ _ h1 h2 => Nat.le_trans h1 h2⟩

/-- `MeterReading.objects.all().order_by('date')`. -/
def sortByDate (rs : List MeterReading) : List MeterReading :=
  rs.insertionSort readingLE

/-- views.py `dashboard`: read all readings ordered by date and the most
recently created tariff (`Tariff.objects.last()`, which on an unordered
queryset takes the greatest primary key, i.e. the last created); if either
is missing render the "No data available." page, else build the three
parallel lists and render the chart page.  The view performs no writes,
so the store passes through unchanged. -/
def dashboard (s : Store) : Store × Response :=
  let readings := sortByDate s.readings
  match s.tariffs.getLast? with
  | none => (s, .noData "No data available.")
  | some t =>
    if readings.isEmpty then (s, .noData "No data available.")
    else
      (s, .page (readings.map MeterReading.date)
        (readings.map MeterReading.kwh_used)
        (readings.map (fun r => r.kwh_used * (t.price_per_kwh : ℚ)))
        readings t)

/-- The dates component of a response (empty for non-chart responses). -/
def Response.datesOf : Response → List Date
  | .page dates _ _ _ _ => dates
  | _ => []

/-- Whether a response is the chart page. -/
def Response.isPage : Response → Bool
  | .page _ _ _ _ _ => true
  | _ => false

/-! ### Helper lemmas -/

theorem sortByDate_perm (rs : List MeterReading) : List.Perm (sortByDate rs) rs :=
  List.perm_insertionSort readingLE rs

theorem sortByDate_eq_nil_iff (rs : List MeterReading) :
    sortByDate rs = [] ↔ rs = [] := by
  rw [← List.length_eq_zero, ← List.length_eq_zero (l := rs), sortByDate,
    List.length_insertionSort]

theorem dashboard_page (s : Store) (t : Tariff) (ht : s.tariffs.getLast? = some t)
    (hr : s.readings ≠ []) :
    dashboard s = (s, .page ((sortByDate s.readings).map MeterReading.date)
      ((sortByDate s.readings).map MeterReading.kwh_used)
      ((sortByDate s.readings).map fun r => r.kwh_used * (t.price_per_kwh : ℚ))
      (sortByDate s.readings) t) := by
  have hne : (sortByDate s.readings).isEmpty = false := by
    simp [List.isEmpty_iff, sortByDate_eq_nil_iff, hr]
  simp [dashboard, ht, hne]

theorem exists_getLast?_of_ne_nil {α : Type} {l : List α} (h : l ≠ []) :
    ∃ a, l.getLast? = some a := by
  cases hl : l.getLast? with
  | none => exact absurd (List.getLast?_eq_none_iff.mp hl) h
  | some a => exact ⟨a, rfl⟩

end EnergyTracker
namespace EnergyTracker

/-- C1: for every store with at least one reading and at least one tariff, the
dashboard computes, per reading in date order, cost = kwhUsed times the current
tariff price (float times int, no rescaling), producing three parallel ordered
sequences (dates, kwh, costs) of equal length. -/
theorem C1_dashboard_parallel_series (s : Store)
    (hr : s.readings ≠ []) (ht : s.tariffs ≠ []) :
    ∃ t, s.tariffs.getLast? = some t ∧
      (dashboard s).2 = .page ((sortByDate s.readings).map MeterReading.date)
        ((sortByDate s.readings).map MeterReading.kwh_used)
        ((sortByDate s.readings).map fun r => r.kwh_used * (t.price_per_kwh : ℚ))
        (sortByDate s.readings) t ∧
      ((sortByDate s.readings).map MeterReading.date).length = s.readings.length ∧
      ((sortByDate s.readings).map MeterReading.kwh_used).length = s.readings.length ∧
      ((sortByDate s.readings).map fun r => r.kwh_used * (t.price_per_kwh : ℚ)).length
        = s.readings.length := by
  obtain ⟨t, htl⟩ := exists_getLast?_of_ne_nil ht
  refine ⟨t, htl, ?_, ?_, ?_, ?_⟩
  · rw [dashboard_page s t htl hr]
  all_goals simp [sortByDate, List.length_insertionSort]

/-- C1 witness: the spec scenario, one reading (2024-01-01, 10 kWh) and tariff
price 15 yield the single cost point (2024-01-01, 150). -/
theorem C1_dashboard_parallel_series_witness :
    (dashboard ⟨[⟨20240101, (10 : ℚ)⟩], [⟨15⟩]⟩).2 =
      .page [20240101] [(10 : ℚ)] [(150 : ℚ)] [⟨20240101, (10 : ℚ)⟩] ⟨15⟩ := by
  obtain ⟨t, htl, hpage, -⟩ :=
    C1_dashboard_parallel_series ⟨[⟨20240101, (10 : ℚ)⟩], [⟨15⟩]⟩ (by decide) (by decide)
  have h15 : (Store.mk [⟨20240101, (10 : ℚ)⟩] [⟨15⟩]).tariffs.getLast? = some ⟨15⟩ := rfl
  rw [h15] at htl
  obtain htv := Option.some_injective _ htl
  subst htv
  rw [hpage]
  simp [sortByDate, List.insertionSort, List.orderedInsert]
  norm_num

/-- C2: the dashboard's cost derivation uses exactly the most recently created
tariff and ignores all earlier tariffs, for every list of earlier tariffs and
every collection of readings. -/
theorem C2_last_tariff_used (rs : List MeterReading) (ts : List Tariff) (t : Tariff) :
    (dashboard ⟨rs, ts ++ [t]⟩).2 = (dashboard ⟨rs, [t]⟩).2 ∧
    (rs ≠ [] → (dashboard ⟨rs, ts ++ [t]⟩).2 =
      .page ((sortByDate rs).map MeterReading.date)
        ((sortByDate rs).map MeterReading.kwh_used)
        ((sortByDate rs).map fun r => r.kwh_used * (t.price_per_kwh : ℚ))
        (sortByDate rs) t) := by
  have h1 : (ts ++ [t]).getLast? = some t := List.getLast?_concat ts
  have h2 : ([t] : List Tariff).getLast? = some t := rfl
  constructor
  · by_cases hr : rs = []
    · subst hr
      simp [dashboard, h1, h2, sortByDate, List.insertionSort]
    · have e1 := dashboard_page ⟨rs, ts ++ [t]⟩ t h1 hr
      have e2 := dashboard_page ⟨rs, [t]⟩ t h2 hr
      rw [e1, e2]
  · intro hr
    rw [dashboard_page ⟨rs, ts ++ [t]⟩ t h1 hr]

/-- C2 witness: the spec scenario, tariffs created with prices 10 then 20 and a
reading of 5 kWh, yields cost 100 (using the latest tariff), not 50. -/
theorem C2_last_tariff_used_witness :
    (dashboard ⟨[⟨20240201, (5 : ℚ)⟩], [⟨10⟩, ⟨20⟩]⟩).2 =
      .page [20240201] [(5 : ℚ)] [(100 : ℚ)] [⟨20240201, (5 : ℚ)⟩] ⟨20⟩ := by
  have h := (C2_last_tariff_used [⟨20240201, (5 : ℚ)⟩] [⟨10⟩] ⟨20⟩).2 (by decide)
  exact h.trans (by simp [sortByDate, List.insertionSort, List.orderedInsert]; norm_num)

/-- C3: the dashboard renders the "No data available." result exactly when
there are zero readings or no tariff, and renders the chart page exactly when
both a reading and a tariff exist. -/
theorem C3_no_data_iff (s : Store) :
    ((dashboard s).2 = .noData "No data available." ↔
      s.readings = [] ∨ s.tariffs = []) ∧
    (dashboard s).2.isPage = (!s.readings.isEmpty && !s.tariffs.isEmpty) := by
  by_cases ht : s.tariffs = []
  · have h0 : s.tariffs.getLast? = none := List.getLast?_eq_none_iff.mpr ht
    constructor
    · simp [dashboard, h0, ht]
    · simp [dashboard, h0, ht, Response.isPage, List.isEmpty_iff]
  · obtain ⟨t, htl⟩ := exists_getLast?_of_ne_nil ht
    by_cases hr : s.readings = []
    · have hne : (sortByDate s.readings).isEmpty = true := by
        simp [List.isEmpty_iff, sortByDate_eq_nil_iff, hr]
      constructor
      · simp [dashboard, htl, hne, hr, sortByDate, List.insertionSort]
      · simp [dashboard, htl, hne, hr, sortByDate, List.insertionSort,
          Response.isPage, List.isEmpty_iff]
    · rw [show (dashboard s).2 = _ from congrArg Prod.snd (dashboard_page s t htl hr)]
      constructor
      · simp [hr, ht]
      · simp [Response.isPage, List.isEmpty_iff, hr, ht]

/-- C4: a POST submission persists the reading candidate and the tariff
candidate independently (an invalid one is silently skipped) and always
redirects to the dashboard. -/
theorem C4_submit_independent (s : Store) (p : Payload) :
    (input_data s .POST p).2 = .redirect "dashboard" ∧
    (input_data s .POST p).1.readings = s.readings ++ (meterReadingClean p).toList ∧
    (input_data s .POST p).1.tariffs = s.tariffs ++ (tariffClean p).toList := by
  cases hm : meterReadingClean p <;> cases ht : tariffClean p <;>
    simp [input_data, hm, ht]

end EnergyTracker
namespace EnergyTracker

/-- C5 counterexample: the claim fails for negative prices.  With a prior
tariff of price 7, submitting price_per_kwh = "-5" creates a new Tariff
record with price -5, which becomes the current (last) tariff: the widget
min-0 attribute is a client-side hint with no server-side check. -/
theorem C5_counterexample :
    (input_data ⟨[], [⟨7⟩]⟩ .POST ⟨none, none, some "-5"⟩).1.tariffs = [⟨7⟩, ⟨-5⟩] ∧
    (input_data ⟨[], [⟨7⟩]⟩ .POST ⟨none, none, some "-5"⟩).1.tariffs.getLast?
      = some ⟨-5⟩ :=
  ⟨by decide, by decide⟩

/-- C5 (amended): for every submission whose price field is absent or does not
parse as an integer, no new Tariff is created and the previously most-recent
Tariff (if any) remains current; negative integer prices, however, are
accepted. -/
theorem C5_amended_non_integer_price (s : Store) (p : Payload)
    (h : p.price_per_kwh.bind parseInt = none) :
    (input_data s .POST p).1.tariffs = s.tariffs ∧
    (input_data s .POST p).1.tariffs.getLast? = s.tariffs.getLast? := by
  have hu : (input_data s .POST p).1.tariffs = s.tariffs := by
    cases hm : meterReadingClean p <;> simp [input_data, tariffClean, h, hm]
  exact ⟨hu, by rw [hu]⟩

/-- C5 witness: submitting the non-integer price "1.5" with a prior tariff of
price 7 leaves the tariff collection, and its most-recent record, unchanged. -/
theorem C5_amended_non_integer_price_witness :
    (input_data ⟨[], [⟨7⟩]⟩ .POST ⟨none, none, some "1.5"⟩).1.tariffs = [⟨7⟩] ∧
    (input_data ⟨[], [⟨7⟩]⟩ .POST ⟨none, none, some "1.5"⟩).1.tariffs.getLast?
      = ([⟨7⟩] : List Tariff).getLast? :=
  C5_amended_non_integer_price ⟨[], [⟨7⟩]⟩ ⟨none, none, some "1.5"⟩ (by decide)

/-- C6: the dashboard's date series is always sorted ascending by date, and
(whenever the chart is produced) is a permutation of the stored readings'
dates, regardless of submission order. -/
theorem C6_series_sorted_by_date (s : Store) :
    List.Sorted (fun a b => a ≤ b) (dashboard s).2.datesOf ∧
    (s.readings ≠ [] → s.tariffs ≠ [] →
      List.Perm (dashboard s).2.datesOf (s.readings.map MeterReading.date)) := by
  by_cases ht : s.tariffs = []
  · have h0 : s.tariffs.getLast? = none := List.getLast?_eq_none_iff.mpr ht
    exact ⟨by simp [dashboard, h0, Response.datesOf], fun _ ht2 => absurd ht ht2⟩
  · obtain ⟨t, htl⟩ := exists_getLast?_of_ne_nil ht
    by_cases hr : s.readings = []
    · have hne : (sortByDate s.readings).isEmpty = true := by
        simp [List.isEmpty_iff, sortByDate_eq_nil_iff, hr]
      refine ⟨?_, fun hr2 _ => absurd hr hr2⟩
      simp [dashboard, htl, hne, hr, sortByDate, List.insertionSort, Response.datesOf]
    · rw [show (dashboard s).2 = _ from congrArg Prod.snd (dashboard_page s t htl hr)]
      constructor
      · exact List.Pairwise.map MeterReading.date (fun a b h => h)
          (List.sorted_insertionSort readingLE s.readings)
      · exact fun _ _ => List.Perm.map MeterReading.date (sortByDate_perm s.readings)

/-- C6 witness: two readings submitted in reverse date order appear in the
series sorted ascending by date, as a permutation of the stored dates. -/
theorem C6_series_sorted_by_date_witness :
    List.Sorted (fun a b => a ≤ b)
      (dashboard ⟨[⟨20240103, (1 : ℚ)⟩, ⟨20240101, (2 : ℚ)⟩], [⟨3⟩]⟩).2.datesOf ∧
    List.Perm
      (dashboard ⟨[⟨20240103, (1 : ℚ)⟩, ⟨20240101, (2 : ℚ)⟩], [⟨3⟩]⟩).2.datesOf
      [20240103, 20240101] :=
  ⟨(C6_series_sorted_by_date ⟨[⟨20240103, (1 : ℚ)⟩, ⟨20240101, (2 : ℚ)⟩], [⟨3⟩]⟩).1,
   (C6_series_sorted_by_date ⟨[⟨20240103, (1 : ℚ)⟩, ⟨20240101, (2 : ℚ)⟩], [⟨3⟩]⟩).2
     (by decide) (by decide)⟩

/-- C7: every submission with a well-formed calendar date and a kwh value that
parses as a non-negative real leaves a new Reading in the store with exactly
the submitted values. -/
theorem C7_valid_reading_persisted (s : Store) (ds ks : String) (ps : Option String)
    (d : Date) (k : ℚ) (hd : parseDate ds = some d) (hk : parseFloat ks = some k)
    (_hk0 : 0 ≤ k) :
    (input_data s .POST ⟨some ds, some ks, ps⟩).1.readings = s.readings ++ [⟨d, k⟩] := by
  cases ht : tariffClean ⟨some ds, some ks, ps⟩ <;>
    simp [input_data, meterReadingClean, hd, hk, ht]

/-- C7 witness: submitting date "2024-01-01" and kwh "10" to the empty store
persists exactly the reading (2024-01-01, 10). -/
theorem C7_valid_reading_persisted_witness :
    (input_data ⟨[], []⟩ .POST ⟨some "2024-01-01", some "10", none⟩).1.readings
      = [⟨20240101, (10 : ℚ)⟩] :=
  C7_valid_reading_persisted ⟨[], []⟩ "2024-01-01" "10" none 20240101 10
    (by decide) (by decide) (by decide)

/-- C8 counterexample: the non-negativity claim fails.  Submitting
kwh_used = "-5" with a well-formed date persists a Reading whose kwhUsed is
-5, a negative value: the form performs no minimum check on kwh_used. -/
theorem C8_counterexample :
    (input_data ⟨[], []⟩ .POST ⟨some "2024-01-01", some "-5", none⟩).1.readings
      = [⟨20240101, (-5 : ℚ)⟩] ∧ ¬ (0 : ℚ) ≤ (-5 : ℚ) :=
  ⟨by decide, by decide⟩

/-- C8 (amended): the invariant maintained by submit is only that every
persisted Reading is either pre-existing or exactly the cleaned submitted
value; the sign of kwhUsed is unconstrained, so negative readings persist. -/
theorem C8_amended_no_sign_invariant (s : Store) (p : Payload) (r : MeterReading)
    (hr : r ∈ (input_data s .POST p).1.readings) :
    r ∈ s.readings ∨ meterReadingClean p = some r := by
  cases hm : meterReadingClean p <;> cases ht : tariffClean p <;>
      simp [input_data, hm, ht] at hr
  · exact Or.inl hr
  · exact Or.inl hr
  · rcases hr with h | h
    · exact Or.inl h
    · exact Or.inr (by rw [h])
  · rcases hr with h | h
    · exact Or.inl h
    · exact Or.inr (by rw [h])

/-- C8 witness: the negative reading (2024-01-01, -5) found in the store after
a submit can only have come from the submission itself. -/
theorem C8_amended_no_sign_invariant_witness :
    (⟨20240101, (-5 : ℚ)⟩ : MeterReading) ∈ ([] : List MeterReading) ∨
      meterReadingClean ⟨some "2024-01-01", some "-5", none⟩
        = some ⟨20240101, (-5 : ℚ)⟩ :=
  C8_amended_no_sign_invariant ⟨[], []⟩ ⟨some "2024-01-01", some "-5", none⟩
    ⟨20240101, (-5 : ℚ)⟩ (by decide)

/-- C9: a GET of the input page writes nothing to the store and always renders
the same two blank form templates, so two calls with no intervening writes
yield structurally identical pairs of empty templates. -/
theorem C9_get_no_side_effects (s : Store) (p q : Payload) :
    (input_data s .GET p).1 = s ∧
    (input_data s .GET p).2 = .renderInput blankMeterForm blankTariffForm ∧
    (input_data ((input_data s .GET p).1) .GET q).2 = (input_data s .GET p).2 := by
  simp [input_data]

/-- C10: the dashboard is read-only: for every store state the readings and
tariffs collections are unchanged by a dashboard request. -/
theorem C10_dashboard_readonly (s : Store) : (dashboard s).1 = s := by
  rcases h : s.tariffs.getLast? with _ | t <;> simp [dashboard, h, apply_ite]

end EnergyTracker
